import Mathlib

/-!
# Verification of the VocaFuse Speech SDK core

Shallow embedding of the SDK's core modules (errors, token manager, HTTP
client, recorder timing, recorder controller, uploader) and proofs of the
spec's testable properties against that embedding.

Conventions:
* machine numbers that carry millisecond timestamps or delays are `Rat`
  (JavaScript numbers, exact arithmetic on the values that occur here);
* platform capabilities (`fetch`, `atob`, `JSON.parse`, `XMLHttpRequest`,
  `MediaRecorder`) are modelled as explicit parameters / outcome values,
  matching the spec's treatment of them as external capabilities;
* fallible code returns `Option`/`Except`.
-/

/-! ## Error taxonomy (src/unnamed/part_002, errors module) -/

/-- The `ErrorCode` enum of the errors module, verbatim. -/
inductive ErrorCode
  | AUTHENTICATION_FAILED
  | TOKEN_EXPIRED
  | TOKEN_REFRESH_FAILED
  | NETWORK_ERROR
  | REQUEST_TIMEOUT
  | REQUEST_FAILED
  | MICROPHONE_ACCESS_DENIED
  | RECORDING_NOT_SUPPORTED
  | RECORDING_FAILED
  | RECORDING_TOO_LONG
  | UPLOAD_FAILED
  | FILE_TOO_LARGE
  | INVALID_FILE_FORMAT
  | INVALID_CONFIG
  | MISSING_TOKEN_ENDPOINT
  | UNKNOWN_ERROR
  | VALIDATION_ERROR
deriving DecidableEq, Repr

/-- The concrete class of an error object: which `class ... extends`
declaration constructed it.  `instanceof VocaFuseError` holds for every
constructor below; `instanceof NetworkError` holds exactly for `network`. -/
inductive ErrClass
  | base
  | authentication
  | network
  | voicenote
  | upload
  | configuration
deriving DecidableEq, Repr

/-- A JavaScript JSON-like value (the `unknown` data that flows through
response bodies and error contexts). -/
inductive Jsonv
  | jnull
  | jbool (b : Bool)
  | jnum (q : Rat)
  | jstr (s : String)
  | jarr (xs : List Jsonv)
  | jobj (fields : List (String × Jsonv))

/-- `VocaFuseError.getDefaultUserMessage`, verbatim from the source switch. -/
def getDefaultUserMessage : ErrorCode → String
  | .MICROPHONE_ACCESS_DENIED => "Please allow microphone access to record audio."
  | .RECORDING_NOT_SUPPORTED => "Audio voicenote is not supported in this browser."
  | .NETWORK_ERROR => "Network connection failed. Please check your internet connection."
  | .TOKEN_EXPIRED => "Your session has expired. Please refresh and try again."
  | .FILE_TOO_LARGE => "The audio file is too large to upload."
  | .RECORDING_TOO_LONG => "Voicenote is too long. Maximum duration is 60 seconds."
  | _ => "An unexpected error occurred. Please try again."

/-- The observable state of a constructed `VocaFuseError` (or subclass):
its class, `name`, `code`, `message`, captured original error (we keep its
`name`; enough to distinguish identities), `context`, `retryable` and
`userMessage` fields. -/
structure VFError where
  cls : ErrClass
  name : String
  code : ErrorCode
  message : String
  originalErrorName : Option String
  context : List (String × Jsonv)
  retryable : Bool
  userMessage : String

/-- The `ErrorDetails` argument of the base `VocaFuseError` constructor.
`retryable` and `userMessage` are optional exactly as in the interface. -/
structure ErrorDetails where
  code : ErrorCode
  message : String
  originalErrorName : Option String := none
  context : List (String × Jsonv) := []
  retryable : Option Bool := none
  userMessage : Option String := none

/-- The base `VocaFuseError` constructor body: `retryable = details.retryable
|| false`; `userMessage = details.userMessage || getDefaultUserMessage()`
(`||` treats the empty string as falsy); `context = details.context || {}`;
`name` is set by the base class and overwritten by each subclass, so it is a
parameter here together with the concrete class. -/
def mkVocaFuseError (cls : ErrClass) (name : String) (d : ErrorDetails) : VFError :=
  { cls := cls
    name := name
    code := d.code
    message := d.message
    originalErrorName := d.originalErrorName
    context := d.context
    retryable := d.retryable.getD false
    userMessage :=
      match d.userMessage with
      | some s => if s = "" then getDefaultUserMessage d.code else s
      | none => getDefaultUserMessage d.code }

/-- `new AuthenticationError(message, originalError?, context?)`. -/
def mkAuthenticationError (message : String) (origName : Option String := none)
    (context : List (String × Jsonv) := []) : VFError :=
  mkVocaFuseError .authentication "AuthenticationError"
    { code := .AUTHENTICATION_FAILED
      message := message
      originalErrorName := origName
      context := context
      retryable := some false
      userMessage := some "Authentication failed. Please check your credentials." }

/-- `new NetworkError(message, originalError?, retryable = true, context?)`. -/
def mkNetworkError (message : String) (origName : Option String := none)
    (retryable : Bool := true) (context : List (String × Jsonv) := []) : VFError :=
  mkVocaFuseError .network "NetworkError"
    { code := .NETWORK_ERROR
      message := message
      originalErrorName := origName
      context := context
      retryable := some retryable
      userMessage := some "Network error occurred. Please check your connection and try again." }

/-- `new VoicenoteError(code, message, originalError?, context?)`; always
non-retryable, user message falls back to the default for the code. -/
def mkVoicenoteError (code : ErrorCode) (message : String) (origName : Option String := none)
    (context : List (String × Jsonv) := []) : VFError :=
  mkVocaFuseError .voicenote "VoicenoteError"
    { code := code
      message := message
      originalErrorName := origName
      context := context
      retryable := some false
      userMessage := none }

/-- `new UploadError(message, originalError?, retryable = true, context?)`. -/
def mkUploadError (message : String) (origName : Option String := none)
    (retryable : Bool := true) (context : List (String × Jsonv) := []) : VFError :=
  mkVocaFuseError .upload "UploadError"
    { code := .UPLOAD_FAILED
      message := message
      originalErrorName := origName
      context := context
      retryable := some retryable
      userMessage := some "Upload failed. Please try again." }

/-- A JavaScript `unknown` value as seen by `wrapUnknownError` and the
client's catch blocks: a `VocaFuseError` (any subclass), some other `Error`
(identified by its `name` and `message`), or a non-`Error` value. -/
inductive JsUnknown
  | vfe (e : VFError)
  | plainErr (name message : String)
  | notError (v : Jsonv)

/-- `wrapUnknownError(error, context?)`: returns `error` unchanged if it is
already a `VocaFuseError`; wraps a plain `Error` keeping its message and the
original error; wraps a non-`Error` with a fixed message and the value spread
into the context as `originalValue`. -/
def wrapUnknownError (error : JsUnknown) (context : List (String × Jsonv) := []) : VFError :=
  match error with
  | .vfe e => e
  | .plainErr name message =>
      mkVocaFuseError .base "VocaFuseError"
        { code := .UNKNOWN_ERROR
          message := message
          originalErrorName := some name
          context := context }
  | .notError v =>
      mkVocaFuseError .base "VocaFuseError"
        { code := .UNKNOWN_ERROR
          message := "An unknown error occurred"
          context := context ++ [("originalValue", v)] }

/-! ## TokenManager (src/unnamed/part_002, token module)

The coalescing behaviour is a scheduling property of single-threaded
JavaScript: each `getToken()` / `refreshToken()` call runs synchronously
from its entry up to the first `await` that actually suspends (for a cache
miss, that is the `fetch` dispatched inside `fetchTokenData`), and the
fetch's completion runs later.  We model each call as its synchronous
start step plus a completion step on the manager's mutable fields, and a
counter of network fetches dispatched to the token endpoint.  "N concurrent
calls while no valid credential is cached" is the schedule in which all N
start steps run before any fetch completes. -/

/-- Mutable fields of a `TokenManager` relevant to caching/coalescing:
`actualJwtToken`, `cachedToken?.expiresAt` (epoch ms) and
`refreshPromise !== null`, plus the count of dispatched token fetches. -/
structure TMState where
  actualJwtToken : Option String
  cachedExpiresAt : Option Rat
  refreshActive : Bool
  fetchCount : Nat

/-- A freshly constructed manager: nothing cached, no in-flight refresh. -/
def tmInit : TMState :=
  { actualJwtToken := none, cachedExpiresAt := none, refreshActive := false, fetchCount := 0 }

/-- `TokenManager.isTokenValid()` at epoch-ms `now` with `refreshBuffer`
seconds: `expiresAt > now + bufferMs`. -/
def isTokenValid (refreshBuffer now : Rat) (s : TMState) : Bool :=
  match s.cachedExpiresAt with
  | none => false
  | some expiresAt => decide (now + refreshBuffer * 1000 < expiresAt)

/-- Synchronous prefix of `getToken()`: if `actualJwtToken && cachedToken &&
isTokenValid()` it returns the cached token (no fetch); otherwise it runs
`fetchNewToken -> fetchTokenData`, which dispatches a network fetch before
suspending.  `getToken` never touches `refreshPromise`.  Returns the new
state and whether a fetch was dispatched. -/
def getTokenStart (refreshBuffer now : Rat) (s : TMState) : TMState × Bool :=
  if s.actualJwtToken.isSome && isTokenValid refreshBuffer now s then (s, false)
  else ({ s with fetchCount := s.fetchCount + 1 }, true)

/-- Synchronous prefix of `refreshToken()`: if `refreshPromise` is set it
awaits the existing promise (no fetch); otherwise it stores
`refreshPromise := fetchTokenData()`, whose body dispatches a network fetch
before suspending. -/
def refreshTokenStart (s : TMState) : TMState × Bool :=
  if s.refreshActive then (s, false)
  else ({ s with refreshActive := true, fetchCount := s.fetchCount + 1 }, true)

/-- Completion of a successful `fetchTokenData` at epoch-ms `now`: stores
the token and `expiresAt = now + expires_in * 1000`. -/
def fetchTokenDataSuccess (now expiresIn : Rat) (idToken : String) (s : TMState) : TMState :=
  { s with actualJwtToken := some idToken, cachedExpiresAt := some (now + expiresIn * 1000) }

/-- The `finally` of the `refreshToken` owner: `refreshPromise := null`. -/
def refreshTokenFinally (s : TMState) : TMState := { s with refreshActive := false }

/-- The start steps of `n` concurrent `getToken()` callers, all running
before any fetch completes. -/
def getTokenStarts (refreshBuffer now : Rat) : Nat → TMState → TMState
  | 0, s => s
  | n + 1, s => getTokenStarts refreshBuffer now n (getTokenStart refreshBuffer now s).1

/-- The start steps of `n` concurrent `refreshToken()` callers, all running
before any fetch completes. -/
def refreshTokenStarts : Nat → TMState → TMState
  | 0, s => s
  | n + 1, s => refreshTokenStarts n (refreshTokenStart s).1

/-! ## HttpClient (src/unnamed/part_000, client module) -/

/-- The client's retry policy record. -/
structure RetryOptions where
  maxRetries : Nat
  baseDelay : Rat
  maxDelay : Rat
  backoffFactor : Rat

/-- Defaults installed by the `HttpClient` constructor. -/
def defaultRetryOptions : RetryOptions :=
  { maxRetries := 3, baseDelay := 1000, maxDelay := 10000, backoffFactor := 2 }

/-- The failure a `fetch` call can raise as seen by `executeRequest`'s
catch block: an `Error` carrying a `name` (a per-attempt timeout abort
surfaces as the name `AbortError`), or a thrown non-`Error` value. -/
inductive FetchFailure
  | jsError (name message : String)
  | nonError (v : Jsonv)

/-- `HttpClient.executeRequest`'s catch block: an `Error` named
`AbortError` is wrapped as `new NetworkError('Request timeout', error,
false, { url })` — note `retryable := false`; any other `Error` as
`new NetworkError('Network request failed', error, true, { url })`;
a non-`Error` value is rethrown unchanged. -/
def executeRequestError (url : String) : FetchFailure → JsUnknown
  | .jsError name _ =>
      if name = "AbortError" then
        .vfe (mkNetworkError "Request timeout" (some name) false [("url", .jstr url)])
      else
        .vfe (mkNetworkError "Network request failed" (some name) true [("url", .jstr url)])
  | .nonError v => .notError v

/-- `error instanceof VocaFuseError`. -/
def isVocaFuseError : JsUnknown → Bool
  | .vfe _ => true
  | _ => false

/-- `error instanceof NetworkError` (the concrete subclass). -/
def isNetworkErrorInst : JsUnknown → Bool
  | .vfe e => decide (e.cls = ErrClass.network)
  | _ => false

/-- `error.retryable` (only `VocaFuseError`s carry the flag). -/
def errRetryable : JsUnknown → Bool
  | .vfe e => e.retryable
  | _ => false

/-- `error.name`. A non-`Error` has no name; `request` never hands one to
`shouldRetry` (it converts it to `new Error(...)`, whose name is `Error`). -/
def errorName : JsUnknown → String
  | .vfe e => e.name
  | .plainErr name _ => name
  | .notError _ => "Error"

/-- `HttpClient.shouldRetry(error, attempt)`, clause for clause: stop once
`attempt >= maxRetries`; a `VocaFuseError` marked non-retryable is final; a
retryable `NetworkError` retries; an error literally named `AbortError`
retries; anything else is final. -/
def shouldRetry (opts : RetryOptions) (error : JsUnknown) (attempt : Nat) : Bool :=
  if opts.maxRetries ≤ attempt then false
  else if isVocaFuseError error && !errRetryable error then false
  else if isNetworkErrorInst error && errRetryable error then true
  else if errorName error = "AbortError" then true
  else false

/-- `HttpClient.calculateRetryDelay(attempt)` with the `Math.random()` draw
`rand ∈ [0,1)` made an explicit parameter:
`delay = baseDelay * backoffFactor^(attempt-1)`;
`jitter = rand * 0.1 * delay`; result `Math.min(delay + jitter, maxDelay)`. -/
def calculateRetryDelay (opts : RetryOptions) (rand : Rat) (attempt : Nat) : Rat :=
  let delay := opts.baseDelay * opts.backoffFactor ^ (attempt - 1)
  let jitter := rand * (1 / 10) * delay
  min (delay + jitter) opts.maxDelay

/-- `typeof body === 'object' && body !== null`: JavaScript objects and
arrays pass; `null`, booleans, numbers and strings do not. -/
def isJsObject : Jsonv → Bool
  | .jobj _ => true
  | .jarr _ => true
  | _ => false

/-- `'k' in body` for a parsed JSON value: only object keys can match. -/
def hasOwnKey (k : String) : Jsonv → Bool
  | .jobj fields => fields.any (fun f => f.1 == k)
  | _ => false

/-- Value of field `k` of a parsed JSON object. -/
def getField (k : String) : Jsonv → Option Jsonv
  | .jobj fields => (fields.find? (fun f => f.1 == k)).map (fun f => f.2)
  | _ => none

/-- `response.headers.get('X-Request-Id') || 'unknown'`: a missing header
(`null`) and the falsy empty string both fall back to `'unknown'`. -/
def reqIdOrUnknown : Option String → String
  | some s => if s = "" then "unknown" else s
  | none => "unknown"

/-- `HttpClient.processResponse` on a successful (`response.ok`) response
whose body parsed to `body`: a body that is an object carrying a `data`
field is returned as the envelope unchanged; anything else is wrapped into
`{object: 'response', data: body, request_id: header || 'unknown'}`. -/
def processResponseOk (body : Jsonv) (reqIdHeader : Option String) : Jsonv :=
  if isJsObject body && hasOwnKey "data" body then body
  else
    .jobj [("object", .jstr "response"),
           ("data", body),
           ("request_id", .jstr (reqIdOrUnknown reqIdHeader))]

/-! ## AudioRecorder elapsed-time tracking (src/src/recorder.ts)

Epoch timestamps are milliseconds (`Date.now()`), durations are seconds;
both are `Rat` since the source divides by 1000. -/

/-- The recorder's timing fields: `startTime` (epoch-ms start reference)
and `pausedTime` (elapsed seconds frozen by `pause()`). -/
structure ARTime where
  startTime : Rat
  pausedTime : Rat

/-- Timing state set by `start()` at epoch-ms `now`: `startTime = Date.now()`,
`pausedTime = 0`. -/
def arStart (now : Rat) : ARTime := { startTime := now, pausedTime := 0 }

/-- `pause()` at epoch-ms `now`: `pausedTime = (Date.now() - startTime) / 1000`
(and the progress timer stops, so no ticks are counted while paused). -/
def arPause (now : Rat) (t : ARTime) : ARTime :=
  { t with pausedTime := (now - t.startTime) / 1000 }

/-- `resume()` at epoch-ms `now`: `startTime = Date.now() - pausedTime * 1000`
(shifts the start reference so paused wall-clock time is excluded). -/
def arResume (now : Rat) (t : ARTime) : ARTime :=
  { t with startTime := now - t.pausedTime * 1000 }

/-- The duration computed inside `stop()`'s `handleStop` handler at epoch-ms
`now`: `(Date.now() - this.startTime) / 1000`, captured before `cleanup()`. -/
def stopMeasuredDuration (now : Rat) (t : ARTime) : Rat :=
  (now - t.startTime) / 1000

/-- End-to-end pause/resume scenario: `start()` at `t0`; record for `a` ms;
`pause()`; stay paused for `p` ms; `resume()`; record for `b` ms; `stop()`.
`handleStop` measures 100 ms after the stop (the final-data flush wait
`setTimeout(resolve, 100)`).  Returns the reported duration in seconds. -/
def pauseResumeScenarioDuration (t0 a p b : Rat) : Rat :=
  let s0 := arStart t0
  let s1 := arPause (t0 + a) s0
  let s2 := arResume (t0 + a + p) s1
  stopMeasuredDuration (t0 + a + p + b + 100) s2

/-- `currentDuration` observed by the progress-timer tick `j` (1-indexed,
`setInterval(..., 100)`) of a session started at time 0 and never paused:
`(Date.now() - startTime) / 1000 = (100 * j) / 1000` seconds. -/
def tickDuration (j : Nat) : Rat := (100 * j : Rat) / 1000

/-- Index of the first tick at which `startProgressTimer`'s callback
auto-triggers `stop()` (`duration >= config.maxDuration`), scanning ticks
`1..fuel`.  `maxDuration` is in seconds. -/
def firstAutoStopTick (maxDuration : Rat) (fuel : Nat) : Option Nat :=
  ((List.range fuel).map (fun j => j + 1)).find? (fun j => decide (maxDuration ≤ tickDuration j))

/-- Duration finally measured by `handleStop` when the auto-stop fires at
tick `j`: the measurement happens 100 ms (flush wait) after the tick. -/
def autoStopMeasuredDuration (j : Nat) : Rat := (100 * j + 100 : Rat) / 1000

/-- The `.catch(error => { throw new VoicenoteError(RECORDING_TOO_LONG, …) })`
attached to the auto-triggered `stop()` inside `startProgressTimer`: only a
*rejection* of `stop()` constructs the `RECORDING_TOO_LONG` error, and it is
merely thrown from inside the timer callback (nothing awaits it).  On a
successful auto-stop the resolved `VoicenoteResult` is discarded and no
condition reaches any caller or callback: the handler produces nothing. -/
def autoStopReportedError (maxDuration : Nat) : Except VFError Unit → Option VFError
  | .ok _ => none
  | .error e =>
      some (mkVoicenoteError .RECORDING_TOO_LONG
        ("Voicenote stopped: maximum duration of " ++ toString maxDuration ++
          " seconds exceeded")
        (some e.name))

/-! ## VoiceRecorder controller (src/unnamed/part_001) -/

/-- The controller's `RecorderState` union. -/
inductive RecState
  | idle | recording | stopped | uploading | uploaded | error
deriving DecidableEq, Repr

/-- The wrapped `AudioRecorder`'s lifecycle state (its `state` getter:
`inactive` when `mediaRecorder` is `null`). -/
inductive ARState
  | inactive | recording | paused
deriving DecidableEq, Repr

/-- `AudioRecorder.cancel()`: returns immediately when inactive (no
`mediaRecorder.stop()`, no `cleanup()`); otherwise stops the recorder and
runs `cleanup()`, which releases the media-stream tracks — the
resource-teardown call.  Returns the new state and whether teardown ran. -/
def arCancel : ARState → ARState × Bool
  | .inactive => (.inactive, false)
  | _ => (.inactive, true)

/-- Observable effects of controller calls: every `onStateChange`
notification in order, the number of device-teardown calls, and the number
of `onCancel` callback invocations. -/
structure VRLog where
  notifications : List RecState
  teardownCalls : Nat
  cancelCallbacks : Nat
deriving DecidableEq, Repr

/-- The empty effect log. -/
def emptyLog : VRLog := { notifications := [], teardownCalls := 0, cancelCallbacks := 0 }

/-- Controller state: `_state`, `_duration`, whether `recordingResult` is
non-null, and the wrapped `AudioRecorder`'s state. -/
structure VRState where
  state : RecState
  duration : Rat
  hasResult : Bool
  ar : ARState

/-- `VoiceRecorder.setState(newState)`: unconditionally assigns `_state`
and invokes the `onStateChange` hook — there is no guard suppressing
no-op (`old = new`) transitions. -/
def vrSetState (newState : RecState) (vr : VRState) (log : VRLog) : VRState × VRLog :=
  ({ vr with state := newState },
   { log with notifications := log.notifications ++ [newState] })

/-- `VoiceRecorder.cancel()`: always awaits `audioRecorder.cancel()`, then
`setState('idle')`, resets `_duration` and `recordingResult`, and fires the
`onCancel` callback — with no early return for an already-idle state. -/
def vrCancel (vr : VRState) (log : VRLog) : VRState × VRLog :=
  let c := arCancel vr.ar
  let log1 := { log with teardownCalls := log.teardownCalls + (if c.2 then 1 else 0) }
  let sl := vrSetState .idle { vr with ar := c.1 } log1
  ({ sl.1 with duration := 0, hasResult := false },
   { sl.2 with cancelCallbacks := sl.2.cancelCallbacks + 1 })

/-- A freshly constructed, idle controller over an inactive recorder. -/
def vrIdle : VRState := { state := .idle, duration := 0, hasResult := false, ar := .inactive }

/-! ## VocaFuseUploader (src/src/upload.ts) -/

/-- The finished capture artifact fields the uploader reads (`blob` itself
is only sliced and forwarded to the transport capability, so it is not
modelled beyond its size). -/
structure VoicenoteResult where
  duration : Rat
  size : Nat
  format : String

/-- The presign response fields consumed when assembling an `UploadResult`. -/
structure UploadDestination where
  voicenote_id : String
  upload_type : String
  s3_key : String
  processing_strategy : String
  client_processed : Bool

/-- The `UploadResult` returned by `upload()` and passed to `onComplete`. -/
structure UploadResult where
  voicenote_id : String
  upload_type : String
  processing_strategy : String
  client_processed : Bool
  s3_key : String
  file_size : Nat
  duration_seconds : Rat
  audio_format : String

/-- Outcome of one `XMLHttpRequest` PUT, as driven by the transport
capability: the `load` event with a status, the `error` event, or the
`timeout` event. -/
inductive XhrOutcome
  | status (code : Nat) (statusText : String)
  | netError
  | timedOut
deriving DecidableEq

/-- Whether an outcome settles the part promise successfully
(`xhr.status >= 200 && xhr.status < 300` on `load`). -/
def xhrResolves : XhrOutcome → Bool
  | .status code _ => decide (200 ≤ code ∧ code < 300)
  | _ => false

/-- `uploadPart`'s settlement for the part at 0-based `partIndex` given its
transfer outcome: 2xx resolves; any other status rejects with an
`UploadError` naming the 1-based part number and status; the `error` /
`timeout` events reject with `NetworkError`s. -/
def uploadPart (outcome : XhrOutcome) (partIndex : Nat) : Except VFError Unit :=
  match outcome with
  | .status code statusText =>
      if 200 ≤ code ∧ code < 300 then .ok ()
      else .error (mkUploadError
        ("Part " ++ toString (partIndex + 1) ++ " upload failed with status " ++
          toString code ++ ": " ++ statusText))
  | .netError =>
      .error (mkNetworkError ("Network error during part " ++ toString (partIndex + 1) ++ " upload"))
  | .timedOut =>
      .error (mkNetworkError ("Part " ++ toString (partIndex + 1) ++ " upload timed out"))

/-- The per-part settlements of `uploadMultipart`'s `parts.map(...)`, each
part paired with its index starting from `firstIndex`. -/
def uploadPartsFrom (outcomes : List XhrOutcome) (firstIndex : Nat) : List (Except VFError Unit) :=
  match outcomes with
  | [] => []
  | o :: rest => uploadPart o firstIndex :: uploadPartsFrom rest (firstIndex + 1)

/-- `Promise.all` over the part settlements: resolves iff every part
resolved; otherwise rejects with a failed part's rejection (the first in
plan order, in this model of the fan-in). -/
def promiseAll : List (Except VFError Unit) → Except VFError Unit
  | [] => .ok ()
  | .ok () :: rest => promiseAll rest
  | .error e :: _ => .error e

/-- `uploadMultipart`: dispatches every part PUT and awaits them all. -/
def uploadMultipart (outcomes : List XhrOutcome) : Except VFError Unit :=
  promiseAll (uploadPartsFrom outcomes 0)

/-- `upload(voicenote)` specialized to a multipart destination whose
presign request already succeeded, with the transport outcomes of the parts
supplied.  On success it assembles the `UploadResult` and invokes
`onComplete`; on any rejection the catch block keeps an `UploadError` as-is
(`wrapUnknownError` returns any other `VocaFuseError` unchanged), invokes
`onError`, and rethrows — no result is produced.  Returns the settlement
together with the `onComplete` and `onError` invocation lists. -/
def uploadRunMultipart (voicenote : VoicenoteResult) (dest : UploadDestination)
    (outcomes : List XhrOutcome) :
    Except VFError UploadResult × List UploadResult × List VFError :=
  match uploadMultipart outcomes with
  | .ok _ =>
      let result : UploadResult :=
        { voicenote_id := dest.voicenote_id
          upload_type := dest.upload_type
          processing_strategy := dest.processing_strategy
          client_processed := dest.client_processed
          s3_key := dest.s3_key
          file_size := voicenote.size
          duration_seconds := voicenote.duration
          audio_format := voicenote.format }
      (.ok result, [result], [])
  | .error e =>
      let uploadError :=
        if e.cls = ErrClass.upload then e
        else wrapUnknownError (.vfe e) [("operation", .jstr "upload voicenote")]
      (.error uploadError, [], [uploadError])

/-- Concrete artifact for the witness scenario. -/
def sampleVoicenote : VoicenoteResult := { duration := 3 / 2, size := 1024, format := "webm" }

/-- Concrete multipart destination for the witness scenario. -/
def sampleDestination : UploadDestination :=
  { voicenote_id := "vn-1", upload_type := "multipart", s3_key := "uploads/vn-1",
    processing_strategy := "standard", client_processed := false }

/-- The claim's 3-part scenario: parts 1 and 3 succeed, part 2 returns
HTTP 500. -/
def threePartScenario : List XhrOutcome :=
  [.status 200 "OK", .status 500 "Internal Server Error", .status 200 "OK"]

/-! ## JWT helpers (src/unnamed/part_002, token module) -/

/-- The padding `'='.repeat((4 - payload.length % 4) % 4)` appended before
base64 decoding. -/
def padBase64 (payload : String) : String :=
  payload ++ String.mk (List.replicate ((4 - payload.length % 4) % 4) '=')

/-- `decodeJwtPayload(token)` with the platform's `atob` and `JSON.parse`
passed explicitly as capabilities; `none` models a thrown exception, which
the function's try/catch converts to `null`.  Splits on `.`, requires
exactly three segments, pads and base64-decodes the middle segment, then
parses it as JSON; any failure yields `none`. -/
def decodeJwtPayload (atobF : String → Option String)
    (jsonParse : String → Option Jsonv) (token : String) : Option Jsonv :=
  let parts := token.splitOn "."
  if parts.length ≠ 3 then none
  else (atobF (padBase64 (parts.getD 1 ""))).bind jsonParse

/-- `isJwtExpired(token)` at `now = Math.floor(Date.now() / 1000)`: `true`
when the payload fails to decode, is a falsy value or lacks a numeric `exp`
(`typeof payload.exp !== 'number'`), or when `payload.exp <= now`. -/
def isJwtExpired (atobF : String → Option String)
    (jsonParse : String → Option Jsonv) (now : Nat) (token : String) : Bool :=
  match decodeJwtPayload atobF jsonParse token with
  | none => true
  | some payload =>
      match getField "exp" payload with
      | some (.jnum e) => decide (e ≤ (now : Rat))
      | _ => true

/-! Theorems for the claims follow after all definitions. -/

/-- Helper: while no token is cached, every concurrent `getToken` start
dispatches its own fetch and leaves the cache empty. -/
theorem getTokenStarts_no_cache (rb now : Rat) :
    ∀ (n : Nat) (s : TMState), s.actualJwtToken = none →
      (getTokenStarts rb now n s).fetchCount = s.fetchCount + n ∧
      (getTokenStarts rb now n s).actualJwtToken = none := by
  intro n
  induction n with
  | zero => intro s h; exact ⟨rfl, h⟩
  | succ n ih =>
      intro s h
      have hstep : (getTokenStart rb now s).1 = { s with fetchCount := s.fetchCount + 1 } := by
        simp [getTokenStart, h]
      have := ih { s with fetchCount := s.fetchCount + 1 } (by simpa using h)
      constructor
      · simpa [getTokenStarts, hstep, Nat.add_assoc, Nat.add_comm, Nat.add_left_comm] using this.1
      · simpa [getTokenStarts, hstep] using this.2

/-- Helper: once `refreshPromise` is set, further concurrent `refreshToken`
starts change nothing (they just await the in-flight promise). -/
theorem refreshTokenStarts_active :
    ∀ (n : Nat) (s : TMState), s.refreshActive = true → refreshTokenStarts n s = s := by
  intro n
  induction n with
  | zero => intro s _; rfl
  | succ n ih =>
      intro s h
      have hstep : (refreshTokenStart s).1 = s := by simp [refreshTokenStart, h]
      simpa [refreshTokenStarts, hstep] using ih s h

/-- C1 counterexample: two concurrent `getToken()` calls on a fresh
`TokenManager` (no valid credential cached) dispatch two network fetches,
not one — `getToken`'s cache-miss path calls `fetchNewToken` directly and
never consults or sets `refreshPromise`, so overlapping callers do not
share an in-flight fetch. -/
theorem getToken_concurrent_two_fetches :
    (getTokenStarts 300 0 2 tmInit).fetchCount = 2 ∧
    (getTokenStarts 300 0 2 tmInit).fetchCount ≠ 1 := by
  constructor
  · rfl
  · intro h
    simp [getTokenStarts, getTokenStart, tmInit, isTokenValid] at h

/-- C1 amended: only `refreshToken()` coalesces — any `n ≥ 1` concurrent
`refreshToken()` calls share one in-flight fetch via `refreshPromise`
(exactly `min n 1` fetches) — while `n` concurrent `getToken()` calls made
while no valid credential is cached dispatch `n` independent fetches. -/
theorem refreshToken_coalesces_getToken_does_not (rb now : Rat) (n : Nat) :
    (getTokenStarts rb now n tmInit).fetchCount = n ∧
    (refreshTokenStarts n tmInit).fetchCount = min n 1 := by
  constructor
  · simpa [tmInit] using (getTokenStarts_no_cache rb now n tmInit rfl).1
  · cases n with
    | zero => rfl
    | succ n =>
        have hstep : (refreshTokenStart tmInit).1 =
            { tmInit with refreshActive := true, fetchCount := 1 } := by
          simp [refreshTokenStart, tmInit]
        have := refreshTokenStarts_active n
          { tmInit with refreshActive := true, fetchCount := 1 } rfl
        simp [refreshTokenStarts, hstep, this]

/-- C2 (code bug evaluated at the failing input): a per-attempt timeout
surfaces from `executeRequest` as a `NetworkError` named `NetworkError`
with `retryable = false`, so `shouldRetry` returns `false` already on
attempt 1 of the default policy (`maxRetries = 3`) — the timed-out attempt
is not followed by another attempt, and the `AbortError` branch of
`shouldRetry` is unreachable for it. -/
theorem timeout_wrapped_nonretryable_not_retried :
    errorName (executeRequestError "https://api.example.com/upload"
      (.jsError "AbortError" "The operation was aborted")) = "NetworkError" ∧
    errRetryable (executeRequestError "https://api.example.com/upload"
      (.jsError "AbortError" "The operation was aborted")) = false ∧
    shouldRetry defaultRetryOptions
      (executeRequestError "https://api.example.com/upload"
        (.jsError "AbortError" "The operation was aborted")) 1 = false ∧
    1 < defaultRetryOptions.maxRetries := by
  refine ⟨rfl, rfl, ?_, by decide⟩
  rfl

/-- C5 counterexample: `cancel()` on an already-idle controller does invoke
the state-change notification hook — `VoiceRecorder.cancel` calls
`setState('idle')` unconditionally and `setState` has no no-op guard, so
the idle→idle transition produces one `onStateChange('idle')` call. -/
theorem cancel_on_idle_notifies :
    (vrCancel vrIdle emptyLog).2.notifications = [RecState.idle] ∧
    (vrCancel vrIdle emptyLog).2.notifications ≠ [] := by
  exact ⟨rfl, by decide⟩

/-- C5 amended: `cancel()` on an already-idle controller makes no
resource-teardown call on the capture device (`AudioRecorder.cancel`
returns immediately when inactive), but it is not a complete no-op at the
observable interface: it invokes the state notification hook once with
`idle` and fires the `onCancel` callback. -/
theorem cancel_on_idle_no_teardown_but_notifies :
    (vrCancel vrIdle emptyLog).2.teardownCalls = 0 ∧
    (vrCancel vrIdle emptyLog).2.notifications = [RecState.idle] ∧
    (vrCancel vrIdle emptyLog).2.cancelCallbacks = 1 ∧
    (vrCancel vrIdle emptyLog).1.state = RecState.idle := by
  exact ⟨rfl, rfl, rfl, rfl⟩

/-- C9: `wrapUnknownError` always yields a `VocaFuseError` (by its result
type), acts as the identity on values that are already `VocaFuseError`s
(discarding the context argument), and is therefore idempotent:
re-wrapping the wrapped error under any second context returns the first
wrap unchanged. -/
theorem wrapUnknownError_id_on_vf_and_idempotent
    (v : VFError) (e : JsUnknown) (ctx ctx' : List (String × Jsonv)) :
    wrapUnknownError (.vfe v) ctx = v ∧
    wrapUnknownError (.vfe (wrapUnknownError e ctx)) ctx' = wrapUnknownError e ctx := by
  refine ⟨rfl, ?_⟩
  cases e <;> rfl

/-- C3 (code bug evaluated at the failing input): with `maxDuration = 2` s
the progress timer auto-triggers `stop()` at tick 20 (t = 2.0 s) and the
finally measured duration is 2.1 s ∈ [2.0, 2.2); but on this successful
auto-stop no "too long" condition reaches any caller — the
`RECORDING_TOO_LONG` error is constructed only inside the `.catch` of the
auto-triggered `stop()`, i.e. only when stopping itself fails, and even
then it is thrown from the timer callback with nothing awaiting it. -/
theorem auto_stop_fires_but_reports_nothing :
    firstAutoStopTick 2 30 = some 20 ∧
    autoStopMeasuredDuration 20 = 21 / 10 ∧
    (2 ≤ autoStopMeasuredDuration 20 ∧ autoStopMeasuredDuration 20 < 11 / 5) ∧
    autoStopReportedError 2 (.ok ()) = none := by
  have heval : firstAutoStopTick 2 30 =
      ((List.range 30).map (fun j => j + 1)).find? (fun j => decide (2000 ≤ 100 * j)) := by
    simp only [firstAutoStopTick]
    congr 1
    funext j
    rw [decide_eq_decide, tickDuration,
      le_div_iff₀ (by norm_num : (0 : Rat) < 1000)]
    norm_num
    norm_cast
  refine ⟨?_, by norm_num [autoStopMeasuredDuration],
    ⟨by norm_num [autoStopMeasuredDuration], by norm_num [autoStopMeasuredDuration]⟩, rfl⟩
  rw [heval]
  decide

/-- C6: pausing freezes elapsed time and resuming shifts the start
reference, so the paused wall-clock span `p` is excluded: the reported
duration is `(a + b + 100) / 1000` seconds for any pause length, and the
claim's run (1.0 s recording, 5.0 s paused, 1.0 s recording) reports
2.1 s — approximately 2.0 s (the extra 0.1 s is the fixed final flush
wait), not 7.0 s. -/
theorem pause_resume_continuity (t0 a p b : Rat) :
    pauseResumeScenarioDuration t0 a p b = (a + b + 100) / 1000 ∧
    pauseResumeScenarioDuration 0 1000 5000 1000 = 21 / 10 ∧
    (2 ≤ pauseResumeScenarioDuration 0 1000 5000 1000 ∧
      pauseResumeScenarioDuration 0 1000 5000 1000 < 22 / 10) ∧
    pauseResumeScenarioDuration 0 1000 5000 1000 ≠ 7 := by
  have key : ∀ t0 a p b : Rat,
      pauseResumeScenarioDuration t0 a p b = (a + b + 100) / 1000 := by
    intro t0 a p b
    simp only [pauseResumeScenarioDuration, arStart, arPause, arResume, stopMeasuredDuration]
    ring
  refine ⟨key t0 a p b, ?_, ⟨?_, ?_⟩, ?_⟩ <;> rw [key 0 1000 5000 1000] <;> norm_num

/-- C7: with the `Math.random()` draw made explicit, `calculateRetryDelay`
for attempt `n` equals `min(maxDelay, baseDelay * backoffFactor^(n-1) *
(1 + j))` for a jitter `j = rand / 10 ∈ [0, 0.1)`; ignoring jitter
(`rand = 0`) the delay is non-decreasing in the attempt number whenever
`backoffFactor ≥ 1` and `baseDelay ≥ 0` (the defaults are 2 and 1000), and
the returned delay never exceeds `maxDelay`. -/
theorem calculateRetryDelay_formula_monotone_capped
    (opts : RetryOptions) (rand : Rat) (n m : Nat)
    (h0 : 0 ≤ rand) (h1 : rand < 1)
    (hfac : 1 ≤ opts.backoffFactor) (hbase : 0 ≤ opts.baseDelay)
    (hnm : n ≤ m) :
    (∃ j : Rat, 0 ≤ j ∧ j < 1 / 10 ∧
      calculateRetryDelay opts rand n =
        min opts.maxDelay (opts.baseDelay * opts.backoffFactor ^ (n - 1) * (1 + j))) ∧
    calculateRetryDelay opts 0 n ≤ calculateRetryDelay opts 0 m ∧
    calculateRetryDelay opts rand n ≤ opts.maxDelay := by
  refine ⟨⟨rand * (1 / 10), ?_, ?_, ?_⟩, ?_, ?_⟩
  · exact mul_nonneg h0 (by norm_num)
  · calc rand * (1 / 10) < 1 * (1 / 10) := by
          exact mul_lt_mul_of_pos_right h1 (by norm_num)
      _ = 1 / 10 := by norm_num
  · simp only [calculateRetryDelay]
    rw [min_comm]
    congr 1
    ring
  · have hpow : opts.backoffFactor ^ (n - 1) ≤ opts.backoffFactor ^ (m - 1) :=
      pow_le_pow_right₀ hfac (Nat.sub_le_sub_right hnm 1)
    have hmono : opts.baseDelay * opts.backoffFactor ^ (n - 1) ≤
        opts.baseDelay * opts.backoffFactor ^ (m - 1) :=
      mul_le_mul_of_nonneg_left hpow hbase
    have hn : calculateRetryDelay opts 0 n =
        min (opts.baseDelay * opts.backoffFactor ^ (n - 1)) opts.maxDelay := by
      simp [calculateRetryDelay]
    have hm' : calculateRetryDelay opts 0 m =
        min (opts.baseDelay * opts.backoffFactor ^ (m - 1)) opts.maxDelay := by
      simp [calculateRetryDelay]
    rw [hn, hm']
    exact min_le_min hmono (le_refl _)
  · simp only [calculateRetryDelay]
    exact min_le_right _ _

/-- C7 witness: the theorem at the default policy, the concrete draw
`rand = 1/2`, and attempts 1 ≤ 2. -/
theorem calculateRetryDelay_witness :
    (∃ j : Rat, 0 ≤ j ∧ j < 1 / 10 ∧
      calculateRetryDelay defaultRetryOptions (1 / 2) 1 =
        min defaultRetryOptions.maxDelay
          (defaultRetryOptions.baseDelay * defaultRetryOptions.backoffFactor ^ (1 - 1) * (1 + j))) ∧
    calculateRetryDelay defaultRetryOptions 0 1 ≤ calculateRetryDelay defaultRetryOptions 0 2 ∧
    calculateRetryDelay defaultRetryOptions (1 / 2) 1 ≤ defaultRetryOptions.maxDelay :=
  calculateRetryDelay_formula_monotone_capped defaultRetryOptions (1 / 2) 1 2
    (by norm_num) (by norm_num) (by norm_num [defaultRetryOptions])
    (by norm_num [defaultRetryOptions]) (by norm_num)

/-- C8: a successful response body lacking the envelope shape is normalized
into an envelope whose `data` is the raw body, whose `object` is
`"response"`, and whose `request_id` is the `X-Request-Id` header value or
`"unknown"`; an already-normalized envelope (an object carrying `data`)
passes through unchanged, so normalization is idempotent. -/
theorem processResponseOk_normalizes_idempotent :
    (∀ (body : Jsonv) (hdr : Option String),
        (isJsObject body && hasOwnKey "data" body) = false →
        getField "data" (processResponseOk body hdr) = some body ∧
        getField "object" (processResponseOk body hdr) = some (.jstr "response") ∧
        getField "request_id" (processResponseOk body hdr) =
          some (.jstr (reqIdOrUnknown hdr))) ∧
    (∀ (body : Jsonv) (hdr hdr' : Option String),
        processResponseOk (processResponseOk body hdr) hdr' = processResponseOk body hdr) := by
  constructor
  · intro body hdr h
    have hw : processResponseOk body hdr =
        .jobj [("object", .jstr "response"), ("data", body),
               ("request_id", .jstr (reqIdOrUnknown hdr))] := by
      simp [processResponseOk, h]
    rw [hw]
    exact ⟨rfl, rfl, rfl⟩
  · intro body hdr hdr'
    by_cases h : (isJsObject body && hasOwnKey "data" body) = true
    · have hb : processResponseOk body hdr = body := by simp [processResponseOk, h]
      have hb' : processResponseOk body hdr' = body := by simp [processResponseOk, h]
      rw [hb, hb']
    · have h' : (isJsObject body && hasOwnKey "data" body) = false := by simpa using h
      have hw : processResponseOk body hdr =
          .jobj [("object", .jstr "response"), ("data", body),
                 ("request_id", .jstr (reqIdOrUnknown hdr))] := by
        simp [processResponseOk, h']
      rw [hw]
      rfl

/-- C8 witness: the raw body `{"foo": 1}` (no `data` field) normalizes to
an envelope whose `data` is that body, and re-normalizing is the identity. -/
theorem processResponseOk_witness :
    getField "data" (processResponseOk (.jobj [("foo", .jnum 1)]) none) =
      some (.jobj [("foo", .jnum 1)]) ∧
    processResponseOk (processResponseOk (.jobj [("foo", .jnum 1)]) none) none =
      processResponseOk (.jobj [("foo", .jnum 1)]) none :=
  ⟨(processResponseOk_normalizes_idempotent.1 (.jobj [("foo", .jnum 1)]) none rfl).1,
   processResponseOk_normalizes_idempotent.2 (.jobj [("foo", .jnum 1)]) none none⟩

/-- Helper: a part settles successfully iff its transfer outcome is 2xx. -/
theorem uploadPart_ok_iff (o : XhrOutcome) (i : Nat) :
    uploadPart o i = .ok () ↔ xhrResolves o = true := by
  cases o with
  | status code text =>
      by_cases h : 200 ≤ code ∧ code < 300
      · simp [uploadPart, xhrResolves, h]
      · simp [uploadPart, xhrResolves, h]
  | netError => simp [uploadPart, xhrResolves]
  | timedOut => simp [uploadPart, xhrResolves]

/-- Helper: the fan-in over the part settlements resolves only if every
part's outcome resolves. -/
theorem uploadPartsFrom_all_ok (outcomes : List XhrOutcome) :
    ∀ (k : Nat), promiseAll (uploadPartsFrom outcomes k) = .ok () →
      ∀ o ∈ outcomes, xhrResolves o = true := by
  induction outcomes with
  | nil => intro k _ o ho; simp at ho
  | cons o rest ih =>
      intro k h o' ho'
      cases hp : uploadPart o k with
      | ok u =>
          cases u
          have hrest : promiseAll (uploadPartsFrom rest (k + 1)) = .ok () := by
            simpa [uploadPartsFrom, promiseAll, hp] using h
          rcases List.mem_cons.mp ho' with h1 | h2
          · subst h1; exact (uploadPart_ok_iff o' k).mp hp
          · exact ih (k + 1) hrest o' h2
      | error e =>
          exfalso
          rw [uploadPartsFrom] at h
          simp [promiseAll, hp] at h

/-- Helper: the shape of `upload()`'s settlement when the multipart fan-in
rejected with `e`. -/
theorem uploadRunMultipart_error (v : VoicenoteResult) (dest : UploadDestination)
    {outcomes : List XhrOutcome} {e : VFError}
    (hm : uploadMultipart outcomes = .error e) :
    (uploadRunMultipart v dest outcomes).1 =
      .error (if e.cls = ErrClass.upload then e
              else wrapUnknownError (.vfe e) [("operation", .jstr "upload voicenote")]) ∧
    (uploadRunMultipart v dest outcomes).2.1 = [] := by
  unfold uploadRunMultipart
  rw [hm]
  exact ⟨rfl, rfl⟩

/-- C4: whenever at least one part of a multipart plan fails, `upload()`
settles with an error and invokes no completion callback — no
`UploadResult` is produced; in the 3-part scenario where part 2 returns
HTTP 500 the rejection is exactly the part-2 `UploadError`, even though
parts 1 and 3 succeeded, and nothing at this layer retries or rolls the
other parts back. -/
theorem multipart_all_or_nothing (v : VoicenoteResult) (dest : UploadDestination)
    (outcomes : List XhrOutcome)
    (h : ∃ o ∈ outcomes, xhrResolves o = false) :
    (∃ e, (uploadRunMultipart v dest outcomes).1 = .error e) ∧
    (uploadRunMultipart v dest outcomes).2.1 = [] ∧
    (uploadRunMultipart sampleVoicenote sampleDestination threePartScenario).1 =
      .error (mkUploadError "Part 2 upload failed with status 500: Internal Server Error") ∧
    (uploadRunMultipart sampleVoicenote sampleDestination threePartScenario).2.1 = [] := by
  have hma : uploadMultipart outcomes ≠ .ok () := by
    intro hok
    obtain ⟨o, ho, hf⟩ := h
    have := uploadPartsFrom_all_ok outcomes 0 hok o ho
    simp [this] at hf
  cases hm : uploadMultipart outcomes with
  | ok u => cases u; exact absurd hm hma
  | error e =>
      have he := uploadRunMultipart_error v dest hm
      exact ⟨⟨_, he.1⟩, he.2, rfl, rfl⟩

/-- C4 witness: the theorem applied to the concrete 3-part scenario where
part 2 returns HTTP 500. -/
theorem multipart_all_or_nothing_witness :
    (∃ e, (uploadRunMultipart sampleVoicenote sampleDestination threePartScenario).1 =
      .error e) ∧
    (uploadRunMultipart sampleVoicenote sampleDestination threePartScenario).2.1 = [] ∧
    (uploadRunMultipart sampleVoicenote sampleDestination threePartScenario).1 =
      .error (mkUploadError "Part 2 upload failed with status 500: Internal Server Error") ∧
    (uploadRunMultipart sampleVoicenote sampleDestination threePartScenario).2.1 = [] :=
  multipart_all_or_nothing sampleVoicenote sampleDestination threePartScenario
    ⟨.status 500 "Internal Server Error", by decide, rfl⟩

/-- C10: `decodeJwtPayload` is total — a token without exactly three
dot-separated segments decodes to `none`, as does one whose middle segment
fails base64 decoding or JSON parsing (the platform capabilities may fail
arbitrarily) — and `isJwtExpired` returns `true` (it cannot throw, being a
total function into `Bool`) whenever the payload decodes to `none` or
lacks a numeric `exp` field. -/
theorem decodeJwt_total_isJwtExpired_safe
    (atobF : String → Option String) (jsonParse : String → Option Jsonv)
    (token : String) (now : Nat) :
    ((token.splitOn ".").length ≠ 3 → decodeJwtPayload atobF jsonParse token = none) ∧
    ((atobF (padBase64 ((token.splitOn ".").getD 1 ""))).bind jsonParse = none →
      decodeJwtPayload atobF jsonParse token = none) ∧
    (decodeJwtPayload atobF jsonParse token = none →
      isJwtExpired atobF jsonParse now token = true) ∧
    (∀ payload, decodeJwtPayload atobF jsonParse token = some payload →
      (∀ e : Rat, getField "exp" payload ≠ some (.jnum e)) →
      isJwtExpired atobF jsonParse now token = true) := by
  refine ⟨?_, ?_, ?_, ?_⟩
  · intro h
    simp [decodeJwtPayload, h]
  · intro h
    by_cases h3 : (token.splitOn ".").length ≠ 3
    · simp [decodeJwtPayload, h3]
    · simp only [decodeJwtPayload]
      rw [if_neg h3]
      exact h
  · intro h
    simp [isJwtExpired, h]
  · intro payload hdec hexp
    rw [isJwtExpired, hdec]
    cases hg : getField "exp" payload with
    | none => simp [hg]
    | some v =>
        cases v with
        | jnum e => exact absurd hg (hexp e)
        | jnull => simp [hg]
        | jbool b => simp [hg]
        | jstr s => simp [hg]
        | jarr xs => simp [hg]
        | jobj fs => simp [hg]

/-- C10 witness: the theorem at the concrete token `"a.b.c"` with an
`atob` capability that throws on every input (decoding the middle segment
fails), so decoding yields `none` and the token counts as expired. -/
theorem decodeJwt_witness :
    decodeJwtPayload (fun _ => none) (fun _ => none) "a.b.c" = none ∧
    isJwtExpired (fun _ => none) (fun _ => none) 0 "a.b.c" = true := by
  have h := decodeJwt_total_isJwtExpired_safe (fun _ => none) (fun _ => none) "a.b.c" 0
  exact ⟨h.2.1 rfl, h.2.2.1 (h.2.1 rfl)⟩
